import Mathlib

/-!
Shallow embedding of the gonka_notifier monitor (src/main.py) and proofs
about its change-detection and de-duplication engine.

The embedding models the pure decision logic of `monitor` and
`fetch_confirmation_weight`:
  * Python dicts become association lists (`List (String × _)`).
  * Heterogeneous detail values become the `PyVal` inductive.
  * Telegram sends become elements of an `Alert` list, carrying exactly the
    data the source interpolates into the message text.
  * Python floats become rationals (`ℚ`); the claims proved about them
    concern the zero-division guards, not rounding of binary floats.
  * Exceptions become `Except` values.
-/

/-- Values found in a check's `details` mapping (JSON scalars). -/
inductive PyVal where
  | int (n : Int)
  | str (s : String)
  | nullv
  deriving DecidableEq, Repr

/-- Python truthiness for `PyVal` (used by `details.get("id") or ...`). -/
def PyVal.truthy : PyVal → Bool
  | .int n => n ≠ 0
  | .str s => s ≠ ""
  | .nullv => false

/-- Python `x or d` on an optional detail value: absent and falsy both fall
through to the fallback. -/
def pyOr (v : Option PyVal) (d : PyVal) : PyVal :=
  match v with
  | some x => if x.truthy then x else d
  | none => d

/-- Whether the first character list is an initial segment of the second
(Python `str.startswith`, character by character). -/
def listStarts : List Char → List Char → Bool
  | [], _ => true
  | _ :: _, [] => false
  | a :: as, b :: bs => a = b && listStarts as bs

/-- Python `s.startswith(p)` (src/main.py line 132). -/
def strStarts (p s : String) : Bool :=
  listStarts p.data s.data

/-- Python `s.removeprefix(p)` (src/main.py line 133). -/
def removePre (p s : String) : String :=
  if strStarts p s then ⟨s.data.drop p.data.length⟩ else s

/-- One entry of the report's `checks` array: `id`, `status`, `message`,
`details` as read by `monitor` (src/main.py lines 99-102). `none` models a
missing key / Python `None`. -/
structure Check where
  id : Option String
  status : Option String
  message : String
  details : List (String × PyVal)
  deriving DecidableEq, Repr

/-- Alerts sent by `monitor` via `send_telegram`, one constructor per call
site, carrying the data interpolated into the message text. -/
inductive Alert where
  | missedRequests (prev missed : Int) (total : Option PyVal) (missedPct : Option PyVal)
  | mlnodeProblem (cid : String) (host : PyVal) (nodeId : PyVal) (message : String)
  | checkFailed (cid : Option String) (status : Option String) (message : String)
  | scriptError (excName excMsg : String)
  | cwDecreased (prev cw : Int) (pctChange : ℚ) (weight totalWeight : Int) (share : ℚ)
  deriving DecidableEq, Repr

/-- The mutable state of the check-evaluation part of `monitor`
(src/main.py lines 86-87): `prev_statuses` and `prev_missed_requests`. -/
structure MonitorState where
  prev_statuses : List (String × String)
  prev_missed_requests : Option Int
  deriving DecidableEq, Repr

/-- Python dict assignment `prev_statuses[cid] = status`: overwrite the
binding for `k` if present, append otherwise. -/
def setStatus (m : List (String × String)) (k v : String) : List (String × String) :=
  match m with
  | [] => [(k, v)]
  | (k', v') :: rest => if k' = k then (k, v) :: rest else (k', v') :: setStatus rest k v

/-- The alert built for a generic failing check (src/main.py lines 131-140):
an ML-node-specific message for ids starting with `mlnode_`, a generic
`[id] status: message` line otherwise. -/
def buildCheckAlert (c : Check) : Alert :=
  match c.id with
  | some cid =>
      if strStarts "mlnode_" cid then
        Alert.mlnodeProblem cid ((c.details.lookup "host").getD (.str "unknown-host"))
          (pyOr (c.details.lookup "id") (.str (removePre "mlnode_" cid))) c.message
      else Alert.checkFailed c.id c.status c.message
  | none => Alert.checkFailed c.id c.status c.message

/-- The body of the per-check loop of `monitor` (src/main.py lines 98-144):
skip `consensus_key_match`; special-case `missed_requests_threshold` on the
raw missed count; otherwise alert on a transition into non-PASS and record
the latest status when both id and status are present. -/
def processCheck (s : MonitorState) (c : Check) : MonitorState × List Alert :=
  if c.id = some "consensus_key_match" then (s, [])
  else if c.id = some "missed_requests_threshold" then
    let missed := c.details.lookup "missed_requests"
    let total := c.details.lookup "total_requests"
    let missed_pct := c.details.lookup "missed_percentage"
    match missed with
    | some (.int m) =>
        let alerts :=
          match s.prev_missed_requests with
          | some p => if p < m then [Alert.missedRequests p m total missed_pct] else []
          | none => []
        ({ s with prev_missed_requests := some m }, alerts)
    | _ => (s, [])
  else
    let prev := c.id.bind fun cid => s.prev_statuses.lookup cid
    let alerts :=
      if c.status ≠ some "PASS" ∧ (prev = none ∨ prev = some "PASS")
      then [buildCheckAlert c] else []
    let s' :=
      match c.id, c.status with
      | some cid, some st => { s with prev_statuses := setStatus s.prev_statuses cid st }
      | _, _ => s
    (s', alerts)

/-- Folding `processCheck` over the `checks` array of one report, collecting
the alerts in send order. -/
def runChecks (s : MonitorState) (checks : List Check) : MonitorState × List Alert :=
  match checks with
  | [] => (s, [])
  | c :: rest =>
      let out := processCheck s c
      let outRest := runChecks out.1 rest
      (outRest.1, out.2 ++ outRest.2)

example : processCheck ⟨[], none⟩ ⟨some "x", some "FAIL", "bad", []⟩ =
    (⟨[("x", "FAIL")], none⟩, [Alert.checkFailed (some "x") (some "FAIL") "bad"]) := by
  decide

example : processCheck ⟨[("x", "FAIL")], none⟩ ⟨some "x", some "FAIL", "bad", []⟩ =
    (⟨[("x", "FAIL")], none⟩, []) := by decide

/-- The mutable state of the confirmation-weight sub-check
(src/main.py lines 88-89): `prev_confirmation_weight` and `prev_cw_epoch`. -/
structure CWState where
  prev_confirmation_weight : Option Int
  prev_cw_epoch : Option Int
  deriving DecidableEq, Repr

/-- Embeds `pct_change` of src/main.py lines 163-166: relative change in percent,
guarded to `0.0` when the previous weight is not positive. -/
def pct_change (cw prev : Int) : ℚ :=
  if prev > 0 then ((cw : ℚ) - (prev : ℚ)) / (prev : ℚ) * 100 else 0

/-- Embeds `share` of src/main.py line 167: the participant's share of total
weight in percent, guarded to `0.0` when the total is not positive. -/
def share (cw total_w : Int) : ℚ :=
  if total_w > 0 then (cw : ℚ) / (total_w : ℚ) * 100 else 0

/-- The confirmation-weight evaluation of one observation
(src/main.py lines 155-175): clear the stored weight on an epoch change,
alert on a strict decrease against the (possibly cleared) stored weight,
then store the current weight and epoch unconditionally. -/
def cwStep (s : CWState) (cw w total_w epoch_idx : Int) : CWState × List Alert :=
  let prevW :=
    match s.prev_cw_epoch with
    | some pe => if epoch_idx ≠ pe then none else s.prev_confirmation_weight
    | none => s.prev_confirmation_weight
  let alerts :=
    match prevW with
    | some p =>
        if cw < p then
          [Alert.cwDecreased p cw (pct_change cw p) w total_w (share cw total_w)]
        else []
    | none => []
  (⟨some cw, some epoch_idx⟩, alerts)

example : cwStep ⟨some 100, some 1⟩ 80 7 200 1 =
    (⟨some 80, some 1⟩, [Alert.cwDecreased 100 80 (-20) 7 200 40]) := by
  simp [cwStep, pct_change, share]
  norm_num

example : cwStep ⟨some 80, some 1⟩ 50 7 200 2 = (⟨some 50, some 2⟩, []) := by
  simp [cwStep]

/-- JSON-like values of the chain API response parsed by
`fetch_confirmation_weight`. -/
inductive JVal where
  | int (n : Int)
  | str (s : String)
  | obj (fields : List (String × JVal))
  | arr (items : List JVal)

/-- Embeds `_get` of src/main.py lines 52-57: return the value under the first of
`keys` present in the dict, else the default (camelCase/snake_case
compatibility). -/
def pyGet (d : List (String × JVal)) (keys : List String) (default : JVal) : JVal :=
  match keys with
  | [] => default
  | k :: ks =>
      match d.lookup k with
      | some v => v
      | none => pyGet d ks default

/-- Python `int(v)`: identity on ints, parse for strings, `TypeError`
otherwise; failures surface as exceptions. -/
def pyInt : JVal → Except String Int
  | .int n => .ok n
  | .str s =>
      match s.toInt? with
      | some n => .ok n
      | none => .error "ValueError"
  | _ => .error "TypeError"

/-- Iterating a JSON value as a list (`for vw in weights`); a non-array
raises. -/
def asList : JVal → Except String (List JVal)
  | .arr l => .ok l
  | _ => .error "TypeError"

/-- Using a JSON value as a dict (`key in d` membership probes of `_get`);
a non-object raises. -/
def asFields : JVal → Except String (List (String × JVal))
  | .obj f => .ok f
  | _ => .error "TypeError"

/-- Python `==` between a JSON value and a string: true only for an equal
string. -/
def jStrEq (v : JVal) (s : String) : Bool :=
  match v with
  | .str t => t = s
  | _ => false

/-- The `for vw in weights` loop of src/main.py lines 75-82: return the
weight tuple of the first entry whose `member_address` (either spelling)
equals the participant address, `none` when no entry matches. -/
def findParticipantWeight (participant : String) (total_weight epoch_index : Int) :
    List JVal → Except String (Option (Int × Int × Int × Int))
  | [] => .ok none
  | vw :: rest => do
      let f ← asFields vw
      if jStrEq (pyGet f ["member_address", "memberAddress"] (.str "")) participant then
        let cw ← pyInt (pyGet f ["confirmation_weight", "confirmationWeight"] (.int 0))
        let w ← pyInt (pyGet f ["weight"] (.int 0))
        return some (cw, w, total_weight, epoch_index)
      else
        findParticipantWeight participant total_weight epoch_index rest

/-- Reading `validation_weights`, `total_weight` and `epoch_index` out of an
epoch-group-data object and scanning for the participant
(src/main.py lines 71-82). -/
def readEpochBlock (epoch_data : List (String × JVal)) (participant : String) :
    Except String (Option (Int × Int × Int × Int)) := do
  let weights ← asList (pyGet epoch_data ["validation_weights", "validationWeights"] (.arr []))
  let total_weight ← pyInt (pyGet epoch_data ["total_weight", "totalWeight"] (.int 0))
  let epoch_index ← pyInt (pyGet epoch_data ["epoch_index", "epochIndex"] (.int 0))
  findParticipantWeight participant total_weight epoch_index weights

/-- The payload parsing of `fetch_confirmation_weight`
(src/main.py lines 68-82): locate the epoch-group-data block under either
spelling, defaulting to the response object itself, then read it. -/
def fetch_confirmation_weight (data : List (String × JVal)) (participant : String) :
    Except String (Option (Int × Int × Int × Int)) := do
  let epoch_data ← asFields (pyGet data ["epoch_group_data", "epochGroupData"] (.obj data))
  readEpochBlock epoch_data participant

/-- A Python exception, by class name and message, as interpolated into the
`script_error` alert (src/main.py line 148). -/
structure PyExc where
  name : String
  msg : String
  deriving DecidableEq, Repr

/-- The `try`-guarded report half of one loop iteration
(src/main.py lines 94-148): a successful fetch is evaluated check by check;
any exception from the fetch/parse path is recovered by a single
`script_error` alert, leaving the check state untouched. -/
def reportPhase (s : MonitorState) (fetched : Except PyExc (List Check)) :
    MonitorState × List Alert :=
  match fetched with
  | .ok checks => runChecks s checks
  | .error e => (s, [Alert.scriptError e.name e.msg])

/-- The confirmation-weight half of one loop iteration
(src/main.py lines 151-177): skipped when no participant address is
configured; a missing participant is a no-op; its own exceptions are only
logged, never alerted. -/
def weightPhase (cws : CWState) (enabled : Bool)
    (wr : Except PyExc (Option (Int × Int × Int × Int))) : CWState × List Alert :=
  if enabled then
    match wr with
    | .ok (some (cw, w, tw, e)) => cwStep cws cw w tw e
    | .ok none => (cws, [])
    | .error _ => (cws, [])
  else (cws, [])

/-- One full iteration of the `while True` loop of `monitor`
(src/main.py lines 92-180): report phase, then weight phase, alerts in
send order; the fetch and weight outcomes enter as `Except` values. -/
def runCycle (s : MonitorState) (cws : CWState) (fetched : Except PyExc (List Check))
    (enabled : Bool) (wr : Except PyExc (Option (Int × Int × Int × Int))) :
    MonitorState × CWState × List Alert :=
  let rep := reportPhase s fetched
  let wt := weightPhase cws enabled wr
  (rep.1, wt.1, rep.2 ++ wt.2)

theorem lookup_setStatus_self (m : List (String × String)) (k v : String) :
    (setStatus m k v).lookup k = some v := by
  induction m with
  | nil => simp [setStatus, List.lookup]
  | cons hd tl ih =>
      by_cases h : hd.1 = k
      · simp [setStatus, h, List.lookup]
      · have hb : (k == hd.1) = false := by
          simp only [beq_eq_false_iff_ne, ne_eq]
          exact fun e => h e.symm
        simp [setStatus, h, List.lookup, hb, ih]

/-- C6: in every cycle of the confirmation-weight evaluator where the
observed epoch index differs from the last-seen epoch index, the stored
prior weight is cleared before the decrease comparison, so no decrease
alert fires in that cycle, and afterwards the stored state is exactly the
current weight and epoch index. -/
theorem cw_epoch_change_resets_baseline (s : CWState) (cw w tw e pe : Int)
    (hpe : s.prev_cw_epoch = some pe) (hne : e ≠ pe) :
    cwStep s cw w tw e = (⟨some cw, some e⟩, []) := by
  simp [cwStep, hpe, hne]

theorem cw_epoch_change_resets_baseline_witness :
    cwStep ⟨some 80, some 1⟩ 50 7 200 2 = (⟨some 50, some 2⟩, []) :=
  cw_epoch_change_resets_baseline ⟨some 80, some 1⟩ 50 7 200 2 1 rfl (by decide)

/-- C7: both divisions of the confirmation-weight alert are guarded: a zero
total weight yields a share of 0 rather than a division error, and a zero
prior confirmation weight yields a percentage change of 0. -/
theorem cw_division_guards (cw : Int) : pct_change cw 0 = 0 ∧ share cw 0 = 0 := by
  constructor <;> simp [pct_change, share]

/-- C8: an exception in the report fetch/parse/evaluation path of a cycle
is recovered by exactly one `script_error` alert at the head of the cycle's
alerts, the check state is left untouched, and the weight sub-check of the
same cycle still runs and contributes its own state update and alerts. -/
theorem cycle_error_isolated (s : MonitorState) (cws : CWState) (ex : PyExc)
    (wr : Except PyExc (Option (Int × Int × Int × Int))) :
    runCycle s cws (.error ex) true wr =
      (s, (weightPhase cws true wr).1,
        Alert.scriptError ex.name ex.msg :: (weightPhase cws true wr).2) := by
  simp [runCycle, reportPhase]

/-- C10: when the weight API response has neither an `epoch_group_data` nor
an `epochGroupData` key, `fetch_confirmation_weight` reads the weight
table, total weight and epoch index from the top-level response object
itself. -/
theorem fetch_cw_fallback_toplevel (data : List (String × JVal)) (p : String)
    (h1 : data.lookup "epoch_group_data" = none)
    (h2 : data.lookup "epochGroupData" = none) :
    fetch_confirmation_weight data p = readEpochBlock data p := by
  have hx : pyGet data ["epoch_group_data", "epochGroupData"] (JVal.obj data) =
      JVal.obj data := by
    simp [pyGet, h1, h2]
  simp only [fetch_confirmation_weight, hx, asFields]
  rfl

/-- A sample weight API response carrying the epoch-group fields at top
level (no wrapper key). -/
def cwData : List (String × JVal) :=
  [("validation_weights", .arr [.obj [("member_address", .str "gonka1abc"),
      ("confirmation_weight", .int 3), ("weight", .int 4)]]),
   ("total_weight", .int 10), ("epoch_index", .int 2)]

theorem fetch_cw_fallback_toplevel_witness :
    fetch_confirmation_weight cwData "gonka1abc" = readEpochBlock cwData "gonka1abc" ∧
    fetch_confirmation_weight cwData "gonka1abc" = .ok (some (3, 4, 10, 2)) :=
  ⟨fetch_cw_fallback_toplevel cwData "gonka1abc" rfl rfl, rfl⟩

/-- C2: for a check whose id is neither ignored nor the missed-requests
special case and whose status is present, an alert fires exactly when the
status is non-PASS and the prior recorded status is absent or PASS
(edge-triggered), and afterwards the state table maps the id to the latest
observed status. -/
theorem generic_check_edge_triggered (s : MonitorState) (c : Check) (cid st : String)
    (hid : c.id = some cid) (hst : c.status = some st)
    (h1 : cid ≠ "consensus_key_match") (h2 : cid ≠ "missed_requests_threshold") :
    (processCheck s c).1.prev_statuses.lookup cid = some st ∧
    ((processCheck s c).2 ≠ [] ↔
      st ≠ "PASS" ∧
        (s.prev_statuses.lookup cid = none ∨ s.prev_statuses.lookup cid = some "PASS")) := by
  have e1 : ¬(c.id = some "consensus_key_match") := by
    rw [hid]; simp [h1]
  have e2 : ¬(c.id = some "missed_requests_threshold") := by
    rw [hid]; simp [h2]
  have hred : processCheck s c =
      ({ s with prev_statuses := setStatus s.prev_statuses cid st },
        if (some st : Option String) ≠ some "PASS" ∧
            (s.prev_statuses.lookup cid = none ∨ s.prev_statuses.lookup cid = some "PASS")
          then [buildCheckAlert c] else []) := by
    unfold processCheck
    rw [if_neg e1, if_neg e2, hid, hst]
    rfl
  constructor
  · rw [hred]
    exact lookup_setStatus_self s.prev_statuses cid st
  · rw [hred]
    by_cases hpass : st = "PASS"
    · subst hpass
      rw [if_neg (fun h => h.1 rfl)]
      exact iff_of_false (fun h => h rfl) (fun h => h.1 rfl)
    · by_cases hprev : s.prev_statuses.lookup cid = none ∨
          s.prev_statuses.lookup cid = some "PASS"
      · rw [if_pos ⟨by simpa using hpass, hprev⟩]
        exact iff_of_true (by simp) ⟨hpass, hprev⟩
      · rw [if_neg (fun h => hprev h.2)]
        exact iff_of_false (fun h => h rfl) (fun h => hprev h.2)

theorem generic_check_edge_triggered_witness :
    (processCheck ⟨[], none⟩ ⟨some "x", some "FAIL", "bad", []⟩).1.prev_statuses.lookup "x" =
      some "FAIL" ∧
    ((processCheck ⟨[], none⟩ ⟨some "x", some "FAIL", "bad", []⟩).2 ≠ [] ↔
      "FAIL" ≠ "PASS" ∧
        ((MonitorState.mk [] none).prev_statuses.lookup "x" = none ∨
          (MonitorState.mk [] none).prev_statuses.lookup "x" = some "PASS")) :=
  generic_check_edge_triggered ⟨[], none⟩ ⟨some "x", some "FAIL", "bad", []⟩ "x" "FAIL"
    rfl rfl (by decide) (by decide)

/-- C9: a check with an id but no status leaves the whole monitor state
untouched (no state-table write), and it alerts exactly when the prior
recorded status is absent or PASS; with the entry staying absent, such a
check re-alerts on every cycle it appears in (level-triggered). -/
theorem absent_status_level_triggered (s : MonitorState) (c : Check) (cid : String)
    (hid : c.id = some cid) (hst : c.status = none)
    (h1 : cid ≠ "consensus_key_match") (h2 : cid ≠ "missed_requests_threshold") :
    (processCheck s c).1 = s ∧
    ((processCheck s c).2 ≠ [] ↔
      s.prev_statuses.lookup cid = none ∨ s.prev_statuses.lookup cid = some "PASS") := by
  have e1 : ¬(c.id = some "consensus_key_match") := by
    rw [hid]; simp [h1]
  have e2 : ¬(c.id = some "missed_requests_threshold") := by
    rw [hid]; simp [h2]
  have hred : processCheck s c =
      (s, if (none : Option String) ≠ some "PASS" ∧
            (s.prev_statuses.lookup cid = none ∨ s.prev_statuses.lookup cid = some "PASS")
          then [buildCheckAlert c] else []) := by
    unfold processCheck
    rw [if_neg e1, if_neg e2, hid, hst]
    rfl
  constructor
  · rw [hred]
  · rw [hred]
    by_cases hprev : s.prev_statuses.lookup cid = none ∨
        s.prev_statuses.lookup cid = some "PASS"
    · rw [if_pos ⟨by simp, hprev⟩]
      exact iff_of_true (by simp) hprev
    · rw [if_neg (fun h => hprev h.2)]
      exact iff_of_false (fun h => h rfl) hprev

theorem absent_status_level_triggered_witness :
    (processCheck ⟨[], none⟩ ⟨some "y", none, "m", []⟩).1 = ⟨[], none⟩ ∧
    ((processCheck ⟨[], none⟩ ⟨some "y", none, "m", []⟩).2 ≠ [] ↔
      (MonitorState.mk [] none).prev_statuses.lookup "y" = none ∨
        (MonitorState.mk [] none).prev_statuses.lookup "y" = some "PASS") :=
  absent_status_level_triggered ⟨[], none⟩ ⟨some "y", none, "m", []⟩ "y"
    rfl rfl (by decide) (by decide)

/-- A `missed_requests_threshold` check observing `m` missed requests out of
100. -/
def mrCheck (m : Int) : Check :=
  { id := some "missed_requests_threshold", status := some "FAIL", message := "",
    details := [("missed_requests", .int m), ("total_requests", .int 100)] }

/-- C1 counterexample: processing the missed-count observations
5, 10, 3, 4 from the initial state sends alerts for the transitions
5 -> 10 and 3 -> 4. The second sent value (4) is below the first sent
value (10), so the sequence of sent values is not strictly increasing and a
value at or below the last sent one does produce an alert: the code
compares against the last observed count, not the last sent one. -/
theorem missed_alerts_not_monotone_cex :
    (runChecks ⟨[], none⟩ [mrCheck 5, mrCheck 10, mrCheck 3, mrCheck 4]).2 =
      [Alert.missedRequests 5 10 (some (.int 100)) none,
       Alert.missedRequests 3 4 (some (.int 100)) none] := by
  decide

/-- C1 (amended): the missed-requests evaluator alerts on the raw missed
count, exactly when a previously observed count exists and the new count
strictly exceeds it; the stored count is overwritten with every integer
observation, alert or not, so the sent values need not be increasing. -/
theorem missed_count_delta_alert (s : MonitorState) (c : Check) (m : Int)
    (hid : c.id = some "missed_requests_threshold")
    (hm : c.details.lookup "missed_requests" = some (.int m)) :
    (processCheck s c).1.prev_missed_requests = some m ∧
    ((processCheck s c).2 ≠ [] ↔ ∃ p, s.prev_missed_requests = some p ∧ p < m) := by
  have e1 : ¬(c.id = some "consensus_key_match") := by
    rw [hid]; simp
  rcases hp : s.prev_missed_requests with _ | p
  · simp [processCheck, e1, hid, hm, hp]
  · by_cases hlt : p < m
    · simp [processCheck, e1, hid, hm, hp, hlt]
    · simp [processCheck, e1, hid, hm, hp, hlt]

theorem missed_count_delta_alert_witness :
    (processCheck ⟨[], some 3⟩ (mrCheck 5)).1.prev_missed_requests = some 5 ∧
    ((processCheck ⟨[], some 3⟩ (mrCheck 5)).2 ≠ [] ↔
      ∃ p, (MonitorState.mk [] (some 3)).prev_missed_requests = some p ∧ p < 5) :=
  missed_count_delta_alert ⟨[], some 3⟩ (mrCheck 5) 5 rfl rfl

/-- C3 counterexample: with a stored count of 10, observing 3 missed
requests (a dip, no alert condition holds) sends nothing yet overwrites the
tracker from 10 down to 3 — the claim says the no-action case leaves the
tracker unchanged. -/
theorem missed_tracker_overwritten_on_dip_cex :
    processCheck ⟨[], some 10⟩ (mrCheck 3) = (⟨[], some 3⟩, []) := by
  decide

/-- Whether an optional detail value is a Python int. -/
def isIntDetail : Option PyVal → Bool
  | some (.int _) => true
  | _ => false

/-- C3 (amended): when the missed-requests detail is not an integer the
evaluator sends nothing and leaves the whole state (tracker included)
unchanged; when it is an integer not exceeding the stored count the
evaluator sends nothing but still overwrites the tracker with the observed
count, so a later exceedance compares against the latest observation, not
against the last alerted value. -/
theorem missed_evaluator_frame (s : MonitorState) (c : Check) (m p : Int)
    (hid : c.id = some "missed_requests_threshold") :
    (isIntDetail (c.details.lookup "missed_requests") = false →
      processCheck s c = (s, [])) ∧
    (c.details.lookup "missed_requests" = some (.int m) →
      s.prev_missed_requests = some p → m ≤ p →
      (processCheck s c).2 = [] ∧ (processCheck s c).1.prev_missed_requests = some m) := by
  have e1 : ¬(c.id = some "consensus_key_match") := by
    rw [hid]; simp
  constructor
  · intro hni
    rcases hl : c.details.lookup "missed_requests" with _ | pv
    · simp [processCheck, e1, hid, hl]
    · cases pv with
      | int n => rw [hl] at hni; simp [isIntDetail] at hni
      | str t => simp [processCheck, e1, hid, hl]
      | nullv => simp [processCheck, e1, hid, hl]
  · intro hm hp hle
    have hnlt : ¬(p < m) := not_lt.mpr hle
    constructor
    · simp [processCheck, e1, hid, hm, hp, hnlt]
    · simp [processCheck, e1, hid, hm, hp, hnlt]

theorem missed_evaluator_frame_witness :
    (processCheck ⟨[], some 7⟩ (mrCheck 4)).2 = [] ∧
    (processCheck ⟨[], some 7⟩ (mrCheck 4)).1.prev_missed_requests = some 4 :=
  (missed_evaluator_frame ⟨[], some 7⟩ (mrCheck 4) 4 7 rfl).2 rfl rfl (by decide)

/-- C4 counterexample: a failing `validator_in_set` check is not skipped:
from the empty state it produces an alert and an entry is written to the
state table — the claim says both ids in the fixed ignore set (including
`validator_in_set`) are skipped entirely. -/
theorem validator_in_set_not_ignored_cex :
    processCheck ⟨[], none⟩ ⟨some "validator_in_set", some "FAIL", "not in set", []⟩ =
      (⟨[("validator_in_set", "FAIL")], none⟩,
       [Alert.checkFailed (some "validator_in_set") (some "FAIL") "not in set"]) := by
  decide

/-- C4 (amended): the fixed ignore set is exactly `consensus_key_match`;
a check with that id is skipped entirely — no alert is sent and the state
is neither read nor written. `validator_in_set` is handled by the generic
rule like any other id. -/
theorem consensus_key_match_skipped (s : MonitorState) (c : Check)
    (hid : c.id = some "consensus_key_match") :
    processCheck s c = (s, []) := by
  simp [processCheck, hid]

theorem consensus_key_match_skipped_witness :
    processCheck ⟨[("a", "PASS")], some 2⟩ ⟨some "consensus_key_match", some "FAIL", "x", []⟩ =
      (⟨[("a", "PASS")], some 2⟩, []) :=
  consensus_key_match_skipped ⟨[("a", "PASS")], some 2⟩
    ⟨some "consensus_key_match", some "FAIL", "x", []⟩ rfl

/-- C5 counterexample: the missed-requests evaluator does not resolve
camelCase spellings. With the same data under `missedRequests` /
`totalRequests` only, nothing happens (no alert, tracker untouched),
whereas the snake_case spelling triggers the alert and the tracker update
— so detail reads in `monitor` are single-key, not alias-resolved. -/
theorem missed_no_alias_resolution_cex :
    processCheck ⟨[], some 1⟩
        ⟨some "missed_requests_threshold", some "FAIL", "",
          [("missedRequests", .int 5), ("totalRequests", .int 100)]⟩ =
      (⟨[], some 1⟩, []) ∧
    processCheck ⟨[], some 1⟩
        ⟨some "missed_requests_threshold", some "FAIL", "",
          [("missed_requests", .int 5), ("total_requests", .int 100)]⟩ =
      (⟨[], some 5⟩, [Alert.missedRequests 1 5 (some (.int 100)) none]) :=
  ⟨by decide, by decide⟩

/-- C5 (amended): alias resolution via `_get` exists but is only used on
the weight API payload; the missed-requests evaluator reads its details
with plain single-key lookups, so its behaviour depends only on the
snake_case keys `missed_requests`, `total_requests` and
`missed_percentage`. -/
theorem missed_reads_snake_keys_only (s : MonitorState) (c c' : Check)
    (hid : c.id = some "missed_requests_threshold")
    (hid' : c'.id = some "missed_requests_threshold")
    (h1 : c.details.lookup "missed_requests" = c'.details.lookup "missed_requests")
    (h2 : c.details.lookup "total_requests" = c'.details.lookup "total_requests")
    (h3 : c.details.lookup "missed_percentage" = c'.details.lookup "missed_percentage") :
    processCheck s c = processCheck s c' := by
  have e1 : ¬(c.id = some "consensus_key_match") := by
    rw [hid]; simp
  have e1' : ¬(c'.id = some "consensus_key_match") := by
    rw [hid']; simp
  unfold processCheck
  rw [if_neg e1, if_neg e1', if_pos hid, if_pos hid', h1, h2, h3]

theorem missed_reads_snake_keys_only_witness :
    processCheck ⟨[], some 1⟩
        ⟨some "missed_requests_threshold", some "FAIL", "",
          [("missed_requests", .int 7), ("missedRequests", .int 9)]⟩ =
      processCheck ⟨[], some 1⟩
        ⟨some "missed_requests_threshold", some "FAIL", "",
          [("missed_requests", .int 7)]⟩ :=
  missed_reads_snake_keys_only ⟨[], some 1⟩
    ⟨some "missed_requests_threshold", some "FAIL", "",
      [("missed_requests", .int 7), ("missedRequests", .int 9)]⟩
    ⟨some "missed_requests_threshold", some "FAIL", "", [("missed_requests", .int 7)]⟩
    rfl rfl rfl rfl rfl
